import Mathlib

/-! Formal model of the `Cell_KokamNMC` constructors from `src/cell_KokamNMC.cpp`
(the SLIDE battery-degradation simulator).  The two C++ constructors are embedded
as pure Lean functions over exact rational arithmetic; throwing an integer error
code is embedded as `Except Nat`.  Callees whose bodies live outside the given
sources (`State::validState`, `Cell::setC`, `checkModelparam`, the default
parameter records) are modelled from the specification and marked as such in
their doc comments. -/

namespace Slide

/-- The discretization artifact (`slide::Model`).  The given sources consume it
opaquely; the only property the constructor checks is its node count, so the
embedding keeps exactly that datum. -/
structure Model where
  nch : Nat
  deriving DecidableEq

/-- The degradation selector (`DEG_ID`): for each of SEI, cracking (CS) and LAM
an identifier array with a count of active entries, two coupling switches, and a
single plating identifier.  C arrays are embedded as index functions; the code
only ever reads indices below the stored count. -/
structure DEG_ID where
  SEI_id : Nat → Nat
  SEI_n : Nat
  SEI_porosity : Nat
  CS_id : Nat → Nat
  CS_n : Nat
  CS_diffusion : Nat
  LAM_id : Nat → Nat
  LAM_n : Nat
  pl_id : Nat

/-- Stress-model activation flags (the claim-relevant part of the C++
`StressParam` record): whether Dai's and Laresgoiti's stress models have to be
evaluated. -/
structure StressParam where
  s_dai : Bool
  s_lares : Bool
  deriving DecidableEq

/-- Modelled from the spec: `settings::def_param::StressParam_Kokam` is not
under the given sources.  The spec states the activation flags are derived, not
user-set, and that the all-default selector yields both flags false; since the
constructor only ever ORs conditions onto the default flags, the default record
must carry both flags false. -/
def StressParam_Kokam : StressParam := { s_dai := false, s_lares := false }

/-- The three flag-derivation loops at the end of both constructors
(`sparam.s_dai = sparam.s_dai || deg_id.CS_id[i] == 2` over `i < CS_n`, then
`|| deg_id.LAM_id[i] == 1` over `i < LAM_n`; `sparam.s_lares = sparam.s_lares ||
deg_id.CS_id[i] == 1` over `i < CS_n`), embedded as left folds over the index
ranges. -/
def updateStressFlags (sp : StressParam) (d : DEG_ID) : StressParam :=
  let dai1 := (List.range d.CS_n).foldl (fun acc i => acc || (d.CS_id i == 2)) sp.s_dai
  let dai2 := (List.range d.LAM_n).foldl (fun acc i => acc || (d.LAM_id i == 1)) dai1
  let lares := (List.range d.CS_n).foldl (fun acc i => acc || (d.CS_id i == 1)) sp.s_lares
  { s_dai := dai2, s_lares := lares }

/-- The battery state (`slide::State`): the fields passed to
`s_ini.initialise(up, un, T, delta, LLI, thickp, thickn, ep, en, ap, an, CS,
Dp, Dn, R, delta_pl)`.  Concentration profiles (`z_type`) are embedded as lists
of rationals. -/
structure State where
  zp : List ℚ
  zn : List ℚ
  T : ℚ
  delta : ℚ
  LLI : ℚ
  thickp : ℚ
  thickn : ℚ
  ep : ℚ
  en : ℚ
  ap : ℚ
  an : ℚ
  CS : ℚ
  Dp : ℚ
  Dn : ℚ
  R : ℚ
  delta_pl : ℚ
  deriving DecidableEq

/-- Physical constant `PhyConst::Kelvin` (offset of 0 °C in kelvin); the cell
code only uses it additively to express 25 °C in kelvin. -/
def Kelvin : ℚ := 273.15

/-- Cathode particle radius (`Rp = 8.5e-6`). -/
def Rp : ℚ := 8.5e-6

/-- Anode particle radius (`Rn = 1.25e-5`). -/
def Rn : ℚ := 1.25e-5

/-- Geometric electrode surface (`elec_surf = 0.0982`). -/
def elec_surf : ℚ := 0.0982

/-- Maximum cathode lithium concentration (`Cmaxpos = 51385`). -/
def Cmaxpos : ℚ := 51385

/-- Maximum anode lithium concentration (`Cmaxneg = 30555`). -/
def Cmaxneg : ℚ := 30555

/-- DC resistance of the total cell (`Rdc = 0.0102`, local in the ctor). -/
def Rdc : ℚ := 0.0102

/-- Lithium fraction in the cathode at 50 % SoC (`fp = 0.689332`). -/
def fp : ℚ := 0.689332

/-- Lithium fraction in the anode at 50 % SoC (`fn = 0.479283`). -/
def fn : ℚ := 0.479283

/-- Initial cell temperature (`T = PhyConst::Kelvin + 25`). -/
def T_ini : ℚ := Kelvin + 25

/-- Initial SEI thickness (`delta = 1e-9`, never zero because several
formulas divide by it). -/
def delta_ini : ℚ := 1e-9

/-- Positive electrode thickness (`thickp = 70e-6`). -/
def thickp : ℚ := 70e-6

/-- Negative electrode thickness (`thickn = 73.5e-6`). -/
def thickn : ℚ := 73.5e-6

/-- Cathode active-material volume fraction (`ep = 0.5`). -/
def ep : ℚ := 0.5

/-- Anode active-material volume fraction (`en = 0.5`). -/
def en : ℚ := 0.5

/-- Effective cathode surface area (`ap = 3 * ep / Rp`). -/
def ap : ℚ := 3 * ep / Rp

/-- Effective anode surface area (`an = 3 * en / Rn`). -/
def an : ℚ := 3 * en / Rn

/-- Initial crack surface (`CS = 0.01 * an * elec_surf * thickn`, 1 % of the
real anode surface area). -/
def CS_ini : ℚ := 0.01 * an * elec_surf * thickn

/-- Initial specific resistance
(`R = Rdc * ((thickp * ap * elec_surf + thickn * an * elec_surf) / 2)`). -/
def R_ini : ℚ := Rdc * ((thickp * ap * elec_surf + thickn * an * elec_surf) / 2)

/-- The initial state assembled at lines 100–121 of the constructor.  The C++
concentration arrays `up, un` are default-declared placeholders ("a random
value for the concentration"); the embedding uses all-zero profiles of the
configured discretization length `nch`. -/
def iniState (nch : Nat) : State :=
  { zp := List.replicate nch 0
    zn := List.replicate nch 0
    T := T_ini
    delta := delta_ini
    LLI := 0
    thickp := thickp
    thickn := thickn
    ep := ep
    en := en
    ap := ap
    an := an
    CS := CS_ini
    Dp := 8e-14
    Dn := 7e-14
    R := R_ini
    delta_pl := 0 }

/-- Modelled from the spec: `State::validState` is not under the given sources.
Per §4.1/§7 validation re-checks every invariant: profile lengths match the
discretization order, temperature strictly between absolute zero and a
material-failure ceiling, SEI thickness strictly positive, lost lithium
non-negative, electrode thicknesses, volume fractions, effective surface areas,
diffusion constants and resistance strictly positive, crack surface area and
plated-lithium thickness non-negative. -/
def validState (nch : Nat) (Tceil : ℚ) (s : State) : Bool :=
  (s.zp.length == nch) && (s.zn.length == nch)
  && (decide (0 < s.T)) && (decide (s.T < Tceil))
  && (decide (0 < s.delta)) && (decide (0 ≤ s.LLI))
  && (decide (0 < s.thickp)) && (decide (0 < s.thickn))
  && (decide (0 < s.ep)) && (decide (0 < s.en))
  && (decide (0 < s.ap)) && (decide (0 < s.an))
  && (decide (0 ≤ s.CS)) && (decide (0 < s.Dp)) && (decide (0 < s.Dn))
  && (decide (0 < s.R)) && (decide (0 ≤ s.delta_pl))

/-- Modelled from the spec: `Cell::setC` is not under the given sources.  Per
§4.1 it fills both concentration profiles uniformly with the lithium fraction
times the respective maximum concentration. -/
def setC (cmaxp cmaxn f1 f2 : ℚ) (s : State) : State :=
  { s with zp := List.replicate s.zp.length (f1 * cmaxp)
           zn := List.replicate s.zn.length (f2 * cmaxn) }

/-- The OCV/entropic curve lengths the Kokam constructor hands to the base
`Cell` constructor: `namepos, 49, nameneg, 63, nameentropicC, 11,
nameentropicCell, 11`. -/
def ocvLengths : List Nat := [49, 63, 11, 11]

/-- Modelled from the spec: the body of `checkModelparam` is not under the
given sources; only its call and the constructor's THROWS documentation are
("110: the matrices for the solid diffusion discretisation are wrong; 111: the
OCV curves are too long").  Per §4.2/§7 it fails with code 110 when the
artifact's node count differs from the configured discretization order and
with code 111 when an OCV/entropic curve exceeds the maximum configured
length. -/
def checkModelparam (M : Model) (nch : Nat) (lens : List Nat) (maxLen : Nat) :
    Except Nat Unit :=
  if M.nch ≠ nch then Except.error 110
  else if lens.any (fun l => decide (maxLen < l)) then Except.error 111
  else Except.ok ()

/-- Sub-record of the surface-cracking fitting parameters (`csparam`). -/
structure CSparam where
  CS1alpha : ℚ
  CS2alpha : ℚ
  CS3alpha : ℚ
  CS4alpha : ℚ
  CS4Amax : ℚ
  CS5k : ℚ
  CS5k_T : ℚ
  CS_diffusion : Nat
  deriving DecidableEq

/-- Sub-record of the lithium-plating fitting parameters (`plparam`). -/
structure PLparam where
  pl1k : ℚ
  pl1k_T : ℚ
  deriving DecidableEq

/-- Modelled from the spec: `getAnodeSurface` is not under the given sources;
per the constructor's comments (lines 114–116 and 154) the real anode surface
area is the effective surface area times the electrode volume,
`an * elec_surf * thickn`. -/
def getAnodeSurface (s : State) : ℚ := s.an * elec_surf * s.thickn

/-- The default degradation selector assigned at lines 173–182: one explicit
no-op identifier (id 0) with count 1 per category, both coupling switches off,
and the single no-op plating identifier. -/
def defaultDegId : DEG_ID :=
  { SEI_id := fun _ => 0
    SEI_n := 1
    SEI_porosity := 0
    CS_id := fun _ => 0
    CS_n := 1
    CS_diffusion := 0
    LAM_id := fun _ => 0
    LAM_n := 1
    pl_id := 0 }

/-- The cell object built by the standard constructor: the fields assigned in
the given source, with the values of `cell_KokamNMC.cpp` lines 49–193.
Parameter records coming from `settings::def_param` other than the stress
flags (SEI and LAM fitting coefficients) are outside the given sources and
carry no claim, so they are not embedded. -/
structure CellKokam where
  verbose : Int
  M : Model
  Cmaxpos : ℚ
  Cmaxneg : ℚ
  C_elec : ℚ
  n : ℚ
  nomCapacity : ℚ
  Vmax : ℚ
  Vmin : ℚ
  Icell : ℚ
  dIcell : ℚ
  dt_I : ℚ
  T_ref : ℚ
  T_env : ℚ
  Qch : ℚ
  rho : ℚ
  Cp : ℚ
  L : ℚ
  Rp : ℚ
  Rn : ℚ
  SAV : ℚ
  elec_surf : ℚ
  sparam : StressParam
  kp : ℚ
  kp_T : ℚ
  kn : ℚ
  kn_T : ℚ
  Dp_T : ℚ
  Dn_T : ℚ
  s_ini : State
  s : State
  nsei : ℚ
  alphasei : ℚ
  OCVsei : ℚ
  rhosei : ℚ
  Rsei : ℚ
  Vmain : ℚ
  Vsei : ℚ
  c_elec0 : ℚ
  csparam : CSparam
  OCVnmc : ℚ
  npl : ℚ
  alphapl : ℚ
  OCVpl : ℚ
  rhopl : ℚ
  plparam : PLparam
  deg_id : DEG_ID

/-- The complete object the standard constructor returns on success: every
member assignment of `Cell_KokamNMC::Cell_KokamNMC(const slide::Model &, int)`
in order, with the state after `setC(fp, fn)` and the stress flags after the
derivation loops over the default selector. -/
def kokamCell (nch : Nat) (MM : Model) (verbosei : Int) : CellKokam :=
  { verbose := verbosei
    M := MM
    Cmaxpos := Cmaxpos
    Cmaxneg := Cmaxneg
    C_elec := 1000
    n := 1
    nomCapacity := 2.7
    Vmax := 4.2
    Vmin := 2.7
    Icell := 0
    dIcell := 1.0
    dt_I := 1e-2
    T_ref := Kelvin + 25
    T_env := Kelvin + 25
    Qch := 90
    rho := 1626
    Cp := 750
    L := 1.6850e-4
    Rp := Rp
    Rn := Rn
    SAV := 252.9915
    elec_surf := elec_surf
    sparam := updateStressFlags StressParam_Kokam defaultDegId
    kp := 5e-11
    kp_T := 58000
    kn := 1.7640e-11
    kn_T := 20000
    Dp_T := 29000
    Dn_T := 35000
    s_ini := iniState nch
    s := setC Cmaxpos Cmaxneg fp fn (iniState nch)
    nsei := 1
    alphasei := 1
    OCVsei := 0.4
    rhosei := 100e3
    Rsei := 2037.4
    Vmain := 13.0
    Vsei := 64.39
    c_elec0 := 4.541 / 1000
    csparam :=
      { CS1alpha := 4.25e-5
        CS2alpha := 6.3e-7
        CS3alpha := 2.31e-16
        CS4alpha := 4.3306e-8
        CS4Amax := 5 * getAnodeSurface (setC Cmaxpos Cmaxneg fp fn (iniState nch))
        CS5k := 1e-18
        CS5k_T := -127040
        CS_diffusion := 2 }
    OCVnmc := 4.1
    npl := 1
    alphapl := 1
    OCVpl := 0
    rhopl := 10000e3
    plparam := { pl1k := 4.5e-10, pl1k_T := -2.014008e5 }
    deg_id := defaultDegId }

/-- The standard constructor `Cell_KokamNMC(const slide::Model &, int)` as a
fallible function: `checkModelparam` may throw 110 or 111; an invalid initial
state is caught and rethrown as code 12; otherwise `setC` is applied and the
fully assigned object is returned.  `nch` is the configured discretization
order, `maxLen` the maximum configured curve length and `Tceil` the
material-failure temperature ceiling (settings constants outside the given
sources, kept as parameters). -/
def mkCellKokam (nch maxLen : Nat) (Tceil : ℚ) (MM : Model) (verbosei : Int) :
    Except Nat CellKokam :=
  match checkModelparam MM nch ocvLengths maxLen with
  | Except.error e => Except.error e
  | Except.ok _ =>
      if validState nch Tceil (iniState nch) then
        Except.ok (kokamCell nch MM verbosei)
      else
        Except.error 12

/-- The second constructor
`Cell_KokamNMC(const slide::Model &, const DEG_ID &, int)`: it delegates to the
standard constructor, replaces the selector with the supplied one, and reruns
the three stress-flag derivation loops on the flags left by the delegated
constructor. -/
def mkCellKokamDeg (nch maxLen : Nat) (Tceil : ℚ) (MM : Model) (degid : DEG_ID)
    (verbosei : Int) : Except Nat CellKokam :=
  match mkCellKokam nch maxLen Tceil MM verbosei with
  | Except.error e => Except.error e
  | Except.ok c =>
      Except.ok { c with deg_id := degid, sparam := updateStressFlags c.sparam degid }

/-- Strip the verbosity field, leaving every computed field intact; used to
state that verbosity never influences a computed result. -/
def eraseVerbose (c : CellKokam) : CellKokam := { c with verbose := 0 }

/-- Propositional characterization of the modelled validity check. -/
lemma validState_eq_true_iff (nch : Nat) (Tceil : ℚ) (s : State) :
    validState nch Tceil s = true ↔
      (s.zp.length = nch ∧ s.zn.length = nch ∧ 0 < s.T ∧ s.T < Tceil ∧
       0 < s.delta ∧ 0 ≤ s.LLI ∧ 0 < s.thickp ∧ 0 < s.thickn ∧
       0 < s.ep ∧ 0 < s.en ∧ 0 < s.ap ∧ 0 < s.an ∧
       0 ≤ s.CS ∧ 0 < s.Dp ∧ 0 < s.Dn ∧ 0 < s.R ∧ 0 ≤ s.delta_pl) := by
  simp [validState, Bool.and_eq_true, decide_eq_true_eq, beq_iff_eq, and_assoc]

/-- The freshly assembled initial state passes the validity check as soon as
the temperature ceiling lies above the initial 25 °C cell temperature. -/
lemma validState_iniState (nch : Nat) (Tceil : ℚ) (h : T_ini < Tceil) :
    validState nch Tceil (iniState nch) = true := by
  rw [validState_eq_true_iff]
  simp only [iniState, List.length_replicate]
  refine ⟨trivial, trivial, ?_, h, ?_, le_refl 0, ?_, ?_, ?_, ?_, ?_, ?_, ?_, ?_, ?_, ?_, le_refl 0⟩
  all_goals
    norm_num [T_ini, Kelvin, delta_ini, thickp, thickn, ep, en, ap, an,
      CS_ini, R_ini, Rdc, elec_surf, Rp, Rn]

/-- The initial state fails the validity check when the temperature ceiling is
at or below the initial cell temperature (the only free knob: every other
initial value is a fixed in-range constant). -/
lemma validState_iniState_false (nch : Nat) (Tceil : ℚ) (h : Tceil ≤ T_ini) :
    validState nch Tceil (iniState nch) = false := by
  rw [Bool.eq_false_iff, Ne, validState_eq_true_iff]
  intro hv
  obtain ⟨-, -, -, h4, -⟩ := hv
  simp only [iniState] at h4
  exact absurd h4 (not_lt.mpr h)

/-- The modelled artifact check succeeds exactly when the node count matches
and every curve is within the maximum length. -/
lemma checkModelparam_ok_iff (M : Model) (nch : Nat) (lens : List Nat) (maxLen : Nat) :
    checkModelparam M nch lens maxLen = Except.ok () ↔
      (M.nch = nch ∧ ∀ l ∈ lens, l ≤ maxLen) := by
  unfold checkModelparam
  split_ifs with h1 h2
  · simp [h1]
  · simp only [List.any_eq_true, decide_eq_true_eq] at h2
    obtain ⟨l, hl, hlen⟩ := h2
    simp only [not_ne_iff] at h1
    constructor
    · intro h; cases h
    · rintro ⟨-, hall⟩
      exact absurd (hall l hl) (not_le.mpr hlen)
  · simp only [List.any_eq_true, decide_eq_true_eq, not_exists, not_and, not_lt] at h2
    simp only [not_ne_iff] at h1
    simp [h1]
    exact h2

/-- Inversion principle for the standard constructor: it returns a cell exactly
when the artifact check passes and the initial state validates, and then the
cell is the fully assigned record. -/
lemma mkCellKokam_ok_iff (nch maxLen : Nat) (Tceil : ℚ) (MM : Model) (v : Int)
    (c : CellKokam) :
    mkCellKokam nch maxLen Tceil MM v = Except.ok c ↔
      (checkModelparam MM nch ocvLengths maxLen = Except.ok () ∧
       validState nch Tceil (iniState nch) = true ∧ c = kokamCell nch MM v) := by
  unfold mkCellKokam
  cases hc : checkModelparam MM nch ocvLengths maxLen with
  | error e => simp [hc]
  | ok u =>
      cases u
      cases hv : validState nch Tceil (iniState nch) <;> simp [hv, eq_comm]

/-- Successful construction, explicitly. -/
lemma mkCellKokam_ok (nch maxLen : Nat) (Tceil : ℚ) (MM : Model) (v : Int)
    (h1 : MM.nch = nch) (h2 : ∀ l ∈ ocvLengths, l ≤ maxLen) (h3 : T_ini < Tceil) :
    mkCellKokam nch maxLen Tceil MM v = Except.ok (kokamCell nch MM v) :=
  (mkCellKokam_ok_iff nch maxLen Tceil MM v _).mpr
    ⟨(checkModelparam_ok_iff MM nch ocvLengths maxLen).mpr ⟨h1, h2⟩,
     validState_iniState nch Tceil h3, rfl⟩

/-- Concrete successful construction used by the witnesses. -/
lemma mkCellKokam_ok_3 : mkCellKokam 3 100 400 ⟨3⟩ 1 = Except.ok (kokamCell 3 ⟨3⟩ 1) :=
  mkCellKokam_ok 3 100 400 ⟨3⟩ 1 rfl (by decide) (by norm_num [T_ini, Kelvin])

/-- A left fold of boolean ORs over an index range equals the initial flag
ORed with an existence test. -/
lemma range_foldl_or (p : Nat → Bool) (n : Nat) (b : Bool) :
    (List.range n).foldl (fun acc i => acc || p i) b = (b || (List.range n).any p) := by
  induction n with
  | zero => simp
  | succ k ih =>
      rw [List.range_succ, List.foldl_append, List.any_append]
      simp [ih, Bool.or_assoc]

/-- The flag-derivation fold is true exactly when the initial flag was already
true or some index below the count satisfies the test. -/
lemma range_foldl_or_eq_true (p : Nat → Bool) (n : Nat) (b : Bool) :
    ((List.range n).foldl (fun acc i => acc || p i) b = true) ↔
      (b = true ∨ ∃ i, i < n ∧ p i = true) := by
  rw [range_foldl_or]
  simp [List.any_eq_true, List.mem_range]

/-- Dai flag after the derivation loops: previous flag, or a cracking id equal
to 2, or a LAM id equal to 1. -/
lemma updateStressFlags_s_dai (sp : StressParam) (d : DEG_ID) :
    ((updateStressFlags sp d).s_dai = true ↔
      sp.s_dai = true ∨ (∃ i, i < d.CS_n ∧ d.CS_id i = 2) ∨
        (∃ i, i < d.LAM_n ∧ d.LAM_id i = 1)) := by
  show ((List.range d.LAM_n).foldl (fun acc i => acc || (d.LAM_id i == 1))
      ((List.range d.CS_n).foldl (fun acc i => acc || (d.CS_id i == 2)) sp.s_dai) = true) ↔ _
  rw [range_foldl_or_eq_true, range_foldl_or_eq_true]
  simp only [beq_iff_eq, or_assoc]

/-- Laresgoiti flag after the derivation loop: previous flag, or a cracking id
equal to 1. -/
lemma updateStressFlags_s_lares (sp : StressParam) (d : DEG_ID) :
    ((updateStressFlags sp d).s_lares = true ↔
      sp.s_lares = true ∨ ∃ i, i < d.CS_n ∧ d.CS_id i = 1) := by
  show ((List.range d.CS_n).foldl (fun acc i => acc || (d.CS_id i == 1)) sp.s_lares = true) ↔ _
  rw [range_foldl_or_eq_true]
  simp only [beq_iff_eq]

/-- Running the derivation loops over the default no-degradation selector
leaves the default (all-false) flags unchanged. -/
lemma updateStressFlags_default :
    updateStressFlags StressParam_Kokam defaultDegId = StressParam_Kokam := rfl

/-- Forward inversion of the selector-accepting constructor: on success the
cell is the delegated cell with the selector replaced and the flags re-derived
from the flags the delegated constructor left. -/
lemma mkCellKokamDeg_ok (nch maxLen : Nat) (Tceil : ℚ) (MM : Model) (d : DEG_ID)
    (v : Int) (c : CellKokam)
    (h : mkCellKokamDeg nch maxLen Tceil MM d v = Except.ok c) :
    c = { kokamCell nch MM v with
          deg_id := d
          sparam := updateStressFlags (kokamCell nch MM v).sparam d } := by
  unfold mkCellKokamDeg at h
  cases hm : mkCellKokam nch maxLen Tceil MM v with
  | error e => rw [hm] at h; cases h
  | ok c0 =>
      rw [hm] at h
      have hc0 := ((mkCellKokam_ok_iff nch maxLen Tceil MM v c0).mp hm).2.2
      simp only [] at h
      injection h with h2
      rw [← h2, hc0]

/-- The concrete selector used by the witnesses: a single Laresgoiti cracking
identifier (CS id 1), everything else as in the default. -/
def laresDegId : DEG_ID := { defaultDegId with CS_id := fun _ => 1 }

/-- The cell the selector-accepting constructor returns for `laresDegId`. -/
def laresCell : CellKokam :=
  { kokamCell 3 ⟨3⟩ 1 with
    deg_id := laresDegId
    sparam := updateStressFlags (kokamCell 3 ⟨3⟩ 1).sparam laresDegId }

/-- Concrete successful construction through the selector-accepting
constructor, used by the witnesses. -/
lemma mkCellKokamDeg_ok_3 :
    mkCellKokamDeg 3 100 400 ⟨3⟩ laresDegId 1 = Except.ok laresCell := by
  unfold mkCellKokamDeg
  rw [mkCellKokam_ok_3]
  rfl

/-- C1: after any construction of a `Cell_KokamNMC` — through the standard
constructor or the selector-accepting one — `sparam.s_dai` is true iff some
cracking identifier in the active selector equals the Dai tag (CS id 2) or
some LAM identifier equals the Dai tag (LAM id 1), and `sparam.s_lares` is
true iff some cracking identifier equals the Laresgoiti tag (CS id 1); in
particular, for the all-default selector both flags are false. -/
theorem claim1_stress_flag_derivation (nch maxLen : Nat) (Tceil : ℚ) (MM : Model)
    (d : DEG_ID) (v : Int) (c cd : CellKokam)
    (hok : mkCellKokam nch maxLen Tceil MM v = Except.ok c)
    (hokd : mkCellKokamDeg nch maxLen Tceil MM d v = Except.ok cd) :
    (cd.sparam.s_dai = true ↔
      (∃ i, i < cd.deg_id.CS_n ∧ cd.deg_id.CS_id i = 2) ∨
      (∃ i, i < cd.deg_id.LAM_n ∧ cd.deg_id.LAM_id i = 1)) ∧
    (cd.sparam.s_lares = true ↔ ∃ i, i < cd.deg_id.CS_n ∧ cd.deg_id.CS_id i = 1) ∧
    (c.sparam.s_dai = true ↔
      (∃ i, i < c.deg_id.CS_n ∧ c.deg_id.CS_id i = 2) ∨
      (∃ i, i < c.deg_id.LAM_n ∧ c.deg_id.LAM_id i = 1)) ∧
    (c.sparam.s_lares = true ↔ ∃ i, i < c.deg_id.CS_n ∧ c.deg_id.CS_id i = 1) ∧
    c.sparam.s_dai = false ∧ c.sparam.s_lares = false := by
  have hc := ((mkCellKokam_ok_iff nch maxLen Tceil MM v c).mp hok).2.2
  have hcd := mkCellKokamDeg_ok nch maxLen Tceil MM d v cd hokd
  subst hc
  subst hcd
  have hsp : (kokamCell nch MM v).sparam = StressParam_Kokam := updateStressFlags_default
  have hdai := updateStressFlags_s_dai (kokamCell nch MM v).sparam d
  have hlares := updateStressFlags_s_lares (kokamCell nch MM v).sparam d
  rw [hsp] at hdai hlares
  simp only [StressParam_Kokam, Bool.false_eq_true, false_or] at hdai hlares
  have hdg : (kokamCell nch MM v).deg_id = defaultDegId := rfl
  refine ⟨hdai, hlares, ?_, ?_, rfl, rfl⟩
  · rw [hdg]
    show ((updateStressFlags StressParam_Kokam defaultDegId).s_dai = true ↔ _)
    rw [updateStressFlags_default]
    simp [StressParam_Kokam, defaultDegId]
  · rw [hdg]
    show ((updateStressFlags StressParam_Kokam defaultDegId).s_lares = true ↔ _)
    rw [updateStressFlags_default]
    simp [StressParam_Kokam, defaultDegId]

/-- C1 witness: concrete application at the Laresgoiti-only selector. -/
theorem claim1_stress_flag_derivation_witness :
    mkCellKokam 3 100 400 ⟨3⟩ 1 = Except.ok (kokamCell 3 ⟨3⟩ 1) ∧
    mkCellKokamDeg 3 100 400 ⟨3⟩ laresDegId 1 = Except.ok laresCell ∧
    ((laresCell.sparam.s_dai = true ↔
        (∃ i, i < laresCell.deg_id.CS_n ∧ laresCell.deg_id.CS_id i = 2) ∨
        (∃ i, i < laresCell.deg_id.LAM_n ∧ laresCell.deg_id.LAM_id i = 1)) ∧
      (laresCell.sparam.s_lares = true ↔
        ∃ i, i < laresCell.deg_id.CS_n ∧ laresCell.deg_id.CS_id i = 1) ∧
      ((kokamCell 3 ⟨3⟩ 1).sparam.s_dai = true ↔
        (∃ i, i < (kokamCell 3 ⟨3⟩ 1).deg_id.CS_n ∧ (kokamCell 3 ⟨3⟩ 1).deg_id.CS_id i = 2) ∨
        (∃ i, i < (kokamCell 3 ⟨3⟩ 1).deg_id.LAM_n ∧ (kokamCell 3 ⟨3⟩ 1).deg_id.LAM_id i = 1)) ∧
      ((kokamCell 3 ⟨3⟩ 1).sparam.s_lares = true ↔
        ∃ i, i < (kokamCell 3 ⟨3⟩ 1).deg_id.CS_n ∧ (kokamCell 3 ⟨3⟩ 1).deg_id.CS_id i = 1) ∧
      (kokamCell 3 ⟨3⟩ 1).sparam.s_dai = false ∧
      (kokamCell 3 ⟨3⟩ 1).sparam.s_lares = false) :=
  ⟨mkCellKokam_ok_3, mkCellKokamDeg_ok_3,
   claim1_stress_flag_derivation 3 100 400 ⟨3⟩ laresDegId 1 _ _
     mkCellKokam_ok_3 mkCellKokamDeg_ok_3⟩

/-- C2: the cell constructed with Cmax_pos = 51385, Cmax_neg = 30555, the
target lithium fractions 0.689332 / 0.479283 and the nominal geometry stores
an initial resistance equal to
`Rdc * (thickness_pos*area_pos*surface + thickness_neg*area_neg*surface) / 2`
with Rdc = 0.0102, and validation of the freshly constructed state succeeds. -/
theorem claim2_initial_resistance_and_validation (nch maxLen : Nat) (Tceil : ℚ)
    (MM : Model) (v : Int) (c : CellKokam)
    (hok : mkCellKokam nch maxLen Tceil MM v = Except.ok c) :
    c.Cmaxpos = 51385 ∧ c.Cmaxneg = 30555 ∧
    c.s_ini.thickp = 70e-6 ∧ c.s_ini.thickn = 73.5e-6 ∧ c.elec_surf = 0.0982 ∧
    c.s_ini.R = 0.0102 * (c.s_ini.thickp * c.s_ini.ap * c.elec_surf +
      c.s_ini.thickn * c.s_ini.an * c.elec_surf) / 2 ∧
    validState nch Tceil c.s_ini = true := by
  obtain ⟨-, hv, hc⟩ := (mkCellKokam_ok_iff nch maxLen Tceil MM v c).mp hok
  subst hc
  refine ⟨rfl, rfl, rfl, rfl, rfl, ?_, hv⟩
  show R_ini = 0.0102 * (thickp * ap * elec_surf + thickn * an * elec_surf) / 2
  rw [R_ini, Rdc]
  ring

/-- C2 witness: concrete successful construction. -/
theorem claim2_initial_resistance_and_validation_witness :
    mkCellKokam 3 100 400 ⟨3⟩ 1 = Except.ok (kokamCell 3 ⟨3⟩ 1) ∧
    ((kokamCell 3 ⟨3⟩ 1).Cmaxpos = 51385 ∧ (kokamCell 3 ⟨3⟩ 1).Cmaxneg = 30555 ∧
     (kokamCell 3 ⟨3⟩ 1).s_ini.thickp = 70e-6 ∧
     (kokamCell 3 ⟨3⟩ 1).s_ini.thickn = 73.5e-6 ∧
     (kokamCell 3 ⟨3⟩ 1).elec_surf = 0.0982 ∧
     (kokamCell 3 ⟨3⟩ 1).s_ini.R =
       0.0102 * ((kokamCell 3 ⟨3⟩ 1).s_ini.thickp * (kokamCell 3 ⟨3⟩ 1).s_ini.ap *
           (kokamCell 3 ⟨3⟩ 1).elec_surf +
         (kokamCell 3 ⟨3⟩ 1).s_ini.thickn * (kokamCell 3 ⟨3⟩ 1).s_ini.an *
           (kokamCell 3 ⟨3⟩ 1).elec_surf) / 2 ∧
     validState 3 400 (kokamCell 3 ⟨3⟩ 1).s_ini = true) :=
  ⟨mkCellKokam_ok_3,
   claim2_initial_resistance_and_validation 3 100 400 ⟨3⟩ 1 _ mkCellKokam_ok_3⟩

/-- C3: if the initial state fails validation, construction propagates the
failure as the distinct fatal code 12 — no recovery, clamping or silent
correction, and no cell object is ever returned. -/
theorem claim3_invalid_state_rethrown (nch maxLen : Nat) (Tceil : ℚ) (MM : Model)
    (v : Int)
    (hchk : checkModelparam MM nch ocvLengths maxLen = Except.ok ())
    (hbad : validState nch Tceil (iniState nch) = false) :
    mkCellKokam nch maxLen Tceil MM v = Except.error 12 ∧
    (∀ c : CellKokam, mkCellKokam nch maxLen Tceil MM v ≠ Except.ok c) ∧
    (12 : Nat) ≠ 110 ∧ (12 : Nat) ≠ 111 := by
  have h12 : mkCellKokam nch maxLen Tceil MM v = Except.error 12 := by
    unfold mkCellKokam
    rw [hchk, hbad]
    rfl
  refine ⟨h12, ?_, by decide, by decide⟩
  intro c hc
  rw [h12] at hc
  cases hc

/-- C3 witness: with a temperature ceiling below the initial 25 °C the initial
state is invalid and the constructor fails with code 12. -/
theorem claim3_invalid_state_rethrown_witness :
    validState 3 200 (iniState 3) = false ∧
    mkCellKokam 3 100 200 ⟨3⟩ 1 = Except.error 12 := by
  have hb : validState 3 200 (iniState 3) = false :=
    validState_iniState_false 3 200 (by norm_num [T_ini, Kelvin])
  exact ⟨hb, (claim3_invalid_state_rethrown 3 100 200 ⟨3⟩ 1 rfl hb).1⟩

/-- C4: the artifact check fails with two distinguishable codes — 110 when the
discretisation node count does not match the configured geometry, 111 when an
OCV/entropic curve exceeds its maximum configured length — and a geometry
mismatch is never reported as a curve-length error (111) or as the
invalid-state code (12). -/
theorem claim4_checkModelparam_error_kinds (nch maxLen : Nat) (Tceil : ℚ)
    (MM : Model) (v : Int) (lens : List Nat) :
    (MM.nch ≠ nch →
      checkModelparam MM nch lens maxLen = Except.error 110 ∧
      mkCellKokam nch maxLen Tceil MM v = Except.error 110 ∧
      mkCellKokam nch maxLen Tceil MM v ≠ Except.error 111 ∧
      mkCellKokam nch maxLen Tceil MM v ≠ Except.error 12) ∧
    (MM.nch = nch → (∃ l ∈ lens, maxLen < l) →
      checkModelparam MM nch lens maxLen = Except.error 111) := by
  constructor
  · intro hne
    have h110 : checkModelparam MM nch ocvLengths maxLen = Except.error 110 := by
      unfold checkModelparam
      rw [if_pos hne]
    have h110l : checkModelparam MM nch lens maxLen = Except.error 110 := by
      unfold checkModelparam
      rw [if_pos hne]
    have hmk : mkCellKokam nch maxLen Tceil MM v = Except.error 110 := by
      unfold mkCellKokam
      rw [h110]
    exact ⟨h110l, hmk, by rw [hmk]; simp, by rw [hmk]; simp⟩
  · intro heq hex
    unfold checkModelparam
    rw [if_neg (by simp [heq]), if_pos]
    simp only [List.any_eq_true, decide_eq_true_eq]
    exact hex

/-- C4 witness: a node-count mismatch yields 110 end to end; an overlong curve
with a matching node count yields 111. -/
theorem claim4_checkModelparam_error_kinds_witness :
    checkModelparam ⟨4⟩ 3 [49, 63, 11, 11] 100 = Except.error 110 ∧
    mkCellKokam 3 100 400 ⟨4⟩ 1 = Except.error 110 ∧
    checkModelparam ⟨3⟩ 3 [49, 63, 11, 11] 50 = Except.error 111 :=
  ⟨((claim4_checkModelparam_error_kinds 3 100 400 ⟨4⟩ 1 [49, 63, 11, 11]).1
      (by decide)).1,
   ((claim4_checkModelparam_error_kinds 3 100 400 ⟨4⟩ 1 [49, 63, 11, 11]).1
      (by decide)).2.1,
   (claim4_checkModelparam_error_kinds 3 50 400 ⟨3⟩ 1 [49, 63, 11, 11]).2 rfl
     ⟨63, by decide, by decide⟩⟩

/-- C6: the initial crack surface area of a freshly constructed cell equals
exactly 1 % of the initial real anode surface area,
`0.01 * an * elec_surf * thickn`, and is non-negative. -/
theorem claim6_initial_crack_surface (nch maxLen : Nat) (Tceil : ℚ) (MM : Model)
    (v : Int) (c : CellKokam)
    (hok : mkCellKokam nch maxLen Tceil MM v = Except.ok c) :
    c.s_ini.CS = 0.01 * c.s_ini.an * c.elec_surf * c.s_ini.thickn ∧
    0 ≤ c.s_ini.CS := by
  obtain ⟨-, -, hc⟩ := (mkCellKokam_ok_iff nch maxLen Tceil MM v c).mp hok
  subst hc
  constructor
  · rfl
  · show (0 : ℚ) ≤ CS_ini
    norm_num [CS_ini, an, en, Rn, elec_surf, thickn]

/-- C6 witness. -/
theorem claim6_initial_crack_surface_witness :
    mkCellKokam 3 100 400 ⟨3⟩ 1 = Except.ok (kokamCell 3 ⟨3⟩ 1) ∧
    ((kokamCell 3 ⟨3⟩ 1).s_ini.CS =
        0.01 * (kokamCell 3 ⟨3⟩ 1).s_ini.an * (kokamCell 3 ⟨3⟩ 1).elec_surf *
          (kokamCell 3 ⟨3⟩ 1).s_ini.thickn ∧
      0 ≤ (kokamCell 3 ⟨3⟩ 1).s_ini.CS) :=
  ⟨mkCellKokam_ok_3, claim6_initial_crack_surface 3 100 400 ⟨3⟩ 1 _ mkCellKokam_ok_3⟩

/-- C7: the effective surface areas at construction are the derived quantities
`3 * volumeFraction / particleRadius` for each electrode, and both are
strictly positive. -/
theorem claim7_effective_surface_areas (nch maxLen : Nat) (Tceil : ℚ) (MM : Model)
    (v : Int) (c : CellKokam)
    (hok : mkCellKokam nch maxLen Tceil MM v = Except.ok c) :
    c.s_ini.ap = 3 * c.s_ini.ep / c.Rp ∧ c.s_ini.an = 3 * c.s_ini.en / c.Rn ∧
    0 < c.s_ini.ap ∧ 0 < c.s_ini.an := by
  obtain ⟨-, -, hc⟩ := (mkCellKokam_ok_iff nch maxLen Tceil MM v c).mp hok
  subst hc
  refine ⟨rfl, rfl, ?_, ?_⟩
  · show (0 : ℚ) < ap
    norm_num [ap, ep, Rp]
  · show (0 : ℚ) < an
    norm_num [an, en, Rn]

/-- C7 witness. -/
theorem claim7_effective_surface_areas_witness :
    mkCellKokam 3 100 400 ⟨3⟩ 1 = Except.ok (kokamCell 3 ⟨3⟩ 1) ∧
    ((kokamCell 3 ⟨3⟩ 1).s_ini.ap =
        3 * (kokamCell 3 ⟨3⟩ 1).s_ini.ep / (kokamCell 3 ⟨3⟩ 1).Rp ∧
      (kokamCell 3 ⟨3⟩ 1).s_ini.an =
        3 * (kokamCell 3 ⟨3⟩ 1).s_ini.en / (kokamCell 3 ⟨3⟩ 1).Rn ∧
      0 < (kokamCell 3 ⟨3⟩ 1).s_ini.ap ∧ 0 < (kokamCell 3 ⟨3⟩ 1).s_ini.an) :=
  ⟨mkCellKokam_ok_3, claim7_effective_surface_areas 3 100 400 ⟨3⟩ 1 _ mkCellKokam_ok_3⟩

/-- C8: a cell constructed without an explicit selector carries an explicit
no-op identifier (id 0) with count 1 in each of the SEI, cracking and LAM
categories, a single scalar no-op plating identifier, and both coupling
switches (SEI porosity loss, cracking diffusion loss) disabled. -/
theorem claim8_default_selector_noop (nch maxLen : Nat) (Tceil : ℚ) (MM : Model)
    (v : Int) (c : CellKokam)
    (hok : mkCellKokam nch maxLen Tceil MM v = Except.ok c) :
    c.deg_id.SEI_id 0 = 0 ∧ c.deg_id.SEI_n = 1 ∧ c.deg_id.SEI_porosity = 0 ∧
    c.deg_id.CS_id 0 = 0 ∧ c.deg_id.CS_n = 1 ∧ c.deg_id.CS_diffusion = 0 ∧
    c.deg_id.LAM_id 0 = 0 ∧ c.deg_id.LAM_n = 1 ∧ c.deg_id.pl_id = 0 ∧
    c.deg_id = defaultDegId := by
  obtain ⟨-, -, hc⟩ := (mkCellKokam_ok_iff nch maxLen Tceil MM v c).mp hok
  subst hc
  exact ⟨rfl, rfl, rfl, rfl, rfl, rfl, rfl, rfl, rfl, rfl⟩

/-- C8 witness. -/
theorem claim8_default_selector_noop_witness :
    mkCellKokam 3 100 400 ⟨3⟩ 1 = Except.ok (kokamCell 3 ⟨3⟩ 1) ∧
    ((kokamCell 3 ⟨3⟩ 1).deg_id.SEI_id 0 = 0 ∧ (kokamCell 3 ⟨3⟩ 1).deg_id.SEI_n = 1 ∧
      (kokamCell 3 ⟨3⟩ 1).deg_id.SEI_porosity = 0 ∧
      (kokamCell 3 ⟨3⟩ 1).deg_id.CS_id 0 = 0 ∧ (kokamCell 3 ⟨3⟩ 1).deg_id.CS_n = 1 ∧
      (kokamCell 3 ⟨3⟩ 1).deg_id.CS_diffusion = 0 ∧
      (kokamCell 3 ⟨3⟩ 1).deg_id.LAM_id 0 = 0 ∧ (kokamCell 3 ⟨3⟩ 1).deg_id.LAM_n = 1 ∧
      (kokamCell 3 ⟨3⟩ 1).deg_id.pl_id = 0 ∧
      (kokamCell 3 ⟨3⟩ 1).deg_id = defaultDegId) :=
  ⟨mkCellKokam_ok_3, claim8_default_selector_noop 3 100 400 ⟨3⟩ 1 _ mkCellKokam_ok_3⟩

/-- C9: for any two verbosity levels, constructing the same cell (same
discretization artifact and same degradation selector) yields identical
computed results — once the stored verbosity integer itself is erased, the two
construction outcomes (including every state field and every cell parameter)
are equal, through both constructors. -/
theorem claim9_verbosity_noninterference (nch maxLen : Nat) (Tceil : ℚ)
    (MM : Model) (d : DEG_ID) (v1 v2 : Int) :
    (mkCellKokam nch maxLen Tceil MM v1).map eraseVerbose =
      (mkCellKokam nch maxLen Tceil MM v2).map eraseVerbose ∧
    (mkCellKokamDeg nch maxLen Tceil MM d v1).map eraseVerbose =
      (mkCellKokamDeg nch maxLen Tceil MM d v2).map eraseVerbose := by
  constructor
  · unfold mkCellKokam
    cases checkModelparam MM nch ocvLengths maxLen with
    | error e => rfl
    | ok u => cases validState nch Tceil (iniState nch) <;> rfl
  · unfold mkCellKokamDeg mkCellKokam
    cases checkModelparam MM nch ocvLengths maxLen with
    | error e => rfl
    | ok u => cases validState nch Tceil (iniState nch) <;> rfl

/-- C10: the constructor validates the state before the concentrations are set
from the target fractions: construction succeeds exactly when the artifact
check passes and the state with placeholder concentration profiles validates
— the final, uniformly filled profiles (fraction times maximum concentration
per electrode) are set afterwards by `setC` and are never themselves
re-validated during construction. -/
theorem claim10_validation_precedes_setC (nch maxLen : Nat) (Tceil : ℚ)
    (MM : Model) (v : Int) :
    ((∃ c, mkCellKokam nch maxLen Tceil MM v = Except.ok c) ↔
      (checkModelparam MM nch ocvLengths maxLen = Except.ok () ∧
       validState nch Tceil (iniState nch) = true)) ∧
    (∀ c, mkCellKokam nch maxLen Tceil MM v = Except.ok c →
      c.s_ini = iniState nch ∧
      (iniState nch).zp = List.replicate nch 0 ∧
      (iniState nch).zn = List.replicate nch 0 ∧
      c.s = setC Cmaxpos Cmaxneg fp fn (iniState nch) ∧
      c.s.zp = List.replicate nch (fp * Cmaxpos) ∧
      c.s.zn = List.replicate nch (fn * Cmaxneg)) := by
  constructor
  · constructor
    · rintro ⟨c, hc⟩
      have h := (mkCellKokam_ok_iff nch maxLen Tceil MM v c).mp hc
      exact ⟨h.1, h.2.1⟩
    · rintro ⟨h1, h2⟩
      exact ⟨kokamCell nch MM v,
        (mkCellKokam_ok_iff nch maxLen Tceil MM v _).mpr ⟨h1, h2, rfl⟩⟩
  · intro c hc
    have h := ((mkCellKokam_ok_iff nch maxLen Tceil MM v c).mp hc).2.2
    subst h
    refine ⟨rfl, rfl, rfl, rfl, ?_, ?_⟩
    · show List.replicate (List.replicate nch (0 : ℚ)).length (fp * Cmaxpos) =
        List.replicate nch (fp * Cmaxpos)
      rw [List.length_replicate]
    · show List.replicate (List.replicate nch (0 : ℚ)).length (fn * Cmaxneg) =
        List.replicate nch (fn * Cmaxneg)
      rw [List.length_replicate]

/-- C10 witness. -/
theorem claim10_validation_precedes_setC_witness :
    mkCellKokam 3 100 400 ⟨3⟩ 1 = Except.ok (kokamCell 3 ⟨3⟩ 1) ∧
    ((kokamCell 3 ⟨3⟩ 1).s_ini = iniState 3 ∧
      (iniState 3).zp = List.replicate 3 0 ∧
      (iniState 3).zn = List.replicate 3 0 ∧
      (kokamCell 3 ⟨3⟩ 1).s = setC Cmaxpos Cmaxneg fp fn (iniState 3) ∧
      (kokamCell 3 ⟨3⟩ 1).s.zp = List.replicate 3 (fp * Cmaxpos) ∧
      (kokamCell 3 ⟨3⟩ 1).s.zn = List.replicate 3 (fn * Cmaxneg)) :=
  ⟨mkCellKokam_ok_3,
   (claim10_validation_precedes_setC 3 100 400 ⟨3⟩ 1).2 _ mkCellKokam_ok_3⟩

end Slide
